import Mathlib

/-
Verification development for the course/enrollment domain of the repository.

The embedding follows the source closely:
  app/courses/domain/entities.py        (entities, computed properties, table
                                         unique constraints)
  app/courses/infrastructure/repositories.py  (queries; scalar_one_or_none
                                         returns at most one row and raises
                                         MultipleResultsFound on two or more;
                                         commits enforce the declared unique
                                         constraints, raising IntegrityError)
  app/courses/domain/services.py        (CourseService, ProjectService)

Datetimes are embedded as integers (only their total order is used), entity
identifiers as naturals.  A DB value is the committed database state; an
operation that raises leaves the committed state untouched (the per request
session is rolled back), which the Except result type encodes.  Audit
timestamp columns (created_at, updated_at, enrolled_at, assigned_at,
dropped_at, completion_date) and the grade/notes/instructions/credits columns
are never read by any modelled operation and are omitted.
-/

inductive EnrollmentStatus where
  | PENDING
  | ACTIVE
  | DROPPED
  | COMPLETED
  deriving DecidableEq, Repr

inductive EnrollmentMethod where
  | SELF_ENROLLED
  | INSTRUCTOR_ADDED
  | CSV_IMPORT
  | ADMIN_ADDED
  deriving DecidableEq, Repr

inductive InstructorRole where
  | PRIMARY_INSTRUCTOR
  | CO_INSTRUCTOR
  | TEACHING_ASSISTANT
  deriving DecidableEq, Repr

/-- Course row (table courses, unique constraint uq_course_code_per_tenant on
(tenant_id, code)). -/
structure Course where
  id : Nat
  name : String
  code : String
  description : Option String
  semester : String
  year : Int
  department : String
  max_students : Option Int
  enrollment_deadline : Option Int
  is_active : Bool
  auto_approval : Bool
  tenant_id : Nat
  deriving DecidableEq, Repr

/-- Course instructor assignment row (table course_instructors, unique
constraint uq_course_instructor_role on (course_id, instructor_id, role)). -/
structure CourseInstructor where
  id : Nat
  course_id : Nat
  instructor_id : Nat
  role : InstructorRole
  is_active : Bool
  tenant_id : Nat
  deriving DecidableEq, Repr

/-- Project row (table projects, no unique constraint beyond the primary
key). -/
structure Project where
  id : Nat
  course_id : Nat
  name : String
  description : Option String
  start_date : Int
  due_date : Int
  team_formation_deadline : Int
  min_team_size : Int
  max_team_size : Int
  allow_individual_work : Bool
  auto_team_formation : Bool
  manual_team_creation : Bool
  is_active : Bool
  is_published : Bool
  requires_approval : Bool
  tenant_id : Nat
  deriving DecidableEq, Repr

/-- Enrollment row (table course_enrollments, unique constraint
uq_course_student_enrollment on (course_id, student_id)). -/
structure CourseEnrollment where
  id : Nat
  course_id : Nat
  student_id : Nat
  status : EnrollmentStatus
  enrollment_method : EnrollmentMethod
  tenant_id : Nat
  deriving DecidableEq, Repr

/-- Committed database state.  nextId models the allocator of fresh row
identifiers (uuid4 in the source, embedded as a counter). -/
structure DB where
  courses : List Course
  instructors : List CourseInstructor
  projects : List Project
  enrollments : List CourseEnrollment
  nextId : Nat
  deriving DecidableEq, Repr

/-- Error kinds raised by the services (ValueError messages in the source)
and by the persistence layer (SQLAlchemy exceptions). -/
inductive SvcError where
  | DuplicateCode
  | DuplicateAssignment
  | AlreadyEnrolled
  | CourseNotFound
  | EnrollmentClosed
  | CourseFull
  | InvalidState
  | NotFound
  | PermissionDenied
  | InvalidDateRange
  | InvalidDeadline
  | InvalidTeamSize
  | MultipleResultsFound
  | NoResultFound
  | IntegrityError
  deriving DecidableEq, Repr

/-- Semantics of SQLAlchemy Result.scalar_one_or_none: none on zero rows, the
row on exactly one, MultipleResultsFound on two or more. -/
def scalar_one_or_none {α : Type} (l : List α) : Except SvcError (Option α) :=
  match l with
  | [] => Except.ok none
  | [a] => Except.ok (some a)
  | _ :: _ :: _ => Except.error SvcError.MultipleResultsFound

/-- CourseRepository.get_by_code: course by (code, tenant_id). -/
def get_by_code (db : DB) (code : String) (tenant_id : Nat) :
    Except SvcError (Option Course) :=
  scalar_one_or_none
    (db.courses.filter (fun c => c.code == code && c.tenant_id == tenant_id))

/-- CourseRepository.get_by_id: course by primary key, not tenant scoped. -/
def course_get_by_id (db : DB) (course_id : Nat) :
    Except SvcError (Option Course) :=
  scalar_one_or_none (db.courses.filter (fun c => c.id == course_id))

/-- CourseRepository.get_by_id_and_tenant. -/
def get_by_id_and_tenant (db : DB) (course_id : Nat) (tenant_id : Nat) :
    Except SvcError (Option Course) :=
  scalar_one_or_none
    (db.courses.filter (fun c => c.id == course_id && c.tenant_id == tenant_id))

/-- CourseEnrollmentRepository.get_by_course_and_student: note the query is
not parameterized by tenant_id. -/
def get_by_course_and_student (db : DB) (course_id : Nat) (student_id : Nat) :
    Except SvcError (Option CourseEnrollment) :=
  scalar_one_or_none
    (db.enrollments.filter
      (fun e => e.course_id == course_id && e.student_id == student_id))

/-- CourseEnrollmentRepository.get_by_id. -/
def enrollment_get_by_id (db : DB) (enrollment_id : Nat) :
    Except SvcError (Option CourseEnrollment) :=
  scalar_one_or_none (db.enrollments.filter (fun e => e.id == enrollment_id))

/-- ProjectRepository.get_by_id. -/
def project_get_by_id (db : DB) (project_id : Nat) :
    Except SvcError (Option Project) :=
  scalar_one_or_none (db.projects.filter (fun p => p.id == project_id))

/-- CourseInstructorRepository.get_by_course_and_instructor: all assignments
for a course-instructor pair (plain list query, no scalar access). -/
def get_by_course_and_instructor (db : DB) (course_id : Nat)
    (instructor_id : Nat) : List CourseInstructor :=
  db.instructors.filter
    (fun a => a.course_id == course_id && a.instructor_id == instructor_id)

/-- CourseInstructorRepository.check_instructor_permission: scalar_one_or_none
over the active assignments of the pair, then a test for presence.  The role
column is not consulted. -/
def check_instructor_permission (db : DB) (course_id : Nat)
    (instructor_id : Nat) : Except SvcError Bool :=
  match scalar_one_or_none
      (db.instructors.filter
        (fun a => a.course_id == course_id && a.instructor_id == instructor_id
                  && a.is_active)) with
  | Except.error e => Except.error e
  | Except.ok r => Except.ok r.isSome

/-- CourseEnrollmentRepository._get_course_tenant_id: scalar_one over the
tenant column; raises on zero rows and on several rows. -/
def get_course_tenant_id (db : DB) (course_id : Nat) : Except SvcError Nat :=
  match db.courses.filter (fun c => c.id == course_id) with
  | [] => Except.error SvcError.NoResultFound
  | [c] => Except.ok c.tenant_id
  | _ :: _ :: _ => Except.error SvcError.MultipleResultsFound

/-- Commit of a new course row: the primary key and the (tenant_id, code)
unique constraint are enforced by the database. -/
def insert_course (db : DB) (c : Course) : Except SvcError DB :=
  if db.courses.any (fun x => x.id == c.id) ||
     db.courses.any (fun x => x.tenant_id == c.tenant_id && x.code == c.code)
  then Except.error SvcError.IntegrityError
  else Except.ok { db with courses := db.courses ++ [c],
                           nextId := db.nextId + 1 }

/-- Commit of a new instructor assignment row: primary key and the
(course_id, instructor_id, role) unique constraint. -/
def insert_instructor (db : DB) (a : CourseInstructor) : Except SvcError DB :=
  if db.instructors.any (fun x => x.id == a.id) ||
     db.instructors.any (fun x => x.course_id == a.course_id
        && x.instructor_id == a.instructor_id && x.role == a.role)
  then Except.error SvcError.IntegrityError
  else Except.ok { db with instructors := db.instructors ++ [a],
                           nextId := db.nextId + 1 }

/-- Commit of a new enrollment row: primary key and the
(course_id, student_id) unique constraint. -/
def insert_enrollment (db : DB) (e : CourseEnrollment) : Except SvcError DB :=
  if db.enrollments.any (fun x => x.id == e.id) ||
     db.enrollments.any (fun x => x.course_id == e.course_id
        && x.student_id == e.student_id)
  then Except.error SvcError.IntegrityError
  else Except.ok { db with enrollments := db.enrollments ++ [e],
                           nextId := db.nextId + 1 }

/-- Commit of a new project row: only the primary key constrains it. -/
def insert_project (db : DB) (p : Project) : Except SvcError DB :=
  if db.projects.any (fun x => x.id == p.id)
  then Except.error SvcError.IntegrityError
  else Except.ok { db with projects := db.projects ++ [p],
                           nextId := db.nextId + 1 }

/-- Commit of an update to an existing enrollment row (the primary key never
changes). -/
def update_enrollment (db : DB) (e : CourseEnrollment) : DB :=
  { db with enrollments :=
      db.enrollments.map (fun x => if x.id == e.id then e else x) }

/-- Commit of an update to an existing project row. -/
def update_project (db : DB) (p : Project) : DB :=
  { db with projects :=
      db.projects.map (fun x => if x.id == p.id then p else x) }

/-- Course.current_enrollment_count: count of enrollments of the course with
status ACTIVE (the enrollments relationship is every enrollment row whose
course_id equals the course id). -/
def current_enrollment_count (db : DB) (c : Course) : Nat :=
  (db.enrollments.filter
    (fun e => e.course_id == c.id && e.status == EnrollmentStatus.ACTIVE)).length

/-- Course.is_full: false when max_students is unset, otherwise the active
count has reached max_students. -/
def is_full (db : DB) (c : Course) : Bool :=
  match c.max_students with
  | none => false
  | some m => decide ((current_enrollment_count db c : Int) ≥ m)

/-- Course.enrollment_open: closed when inactive, past the deadline, or
full. -/
def enrollment_open (db : DB) (now : Int) (c : Course) : Bool :=
  if !c.is_active then false
  else if (match c.enrollment_deadline with
           | some d => decide (now > d)
           | none => false) then false
  else !(is_full db c)

/-- CourseService.create_course: rejects a duplicate (tenant_id, code), then
creates the course and the primary instructor assignment. -/
def create_course (db : DB) (name : String) (code : String)
    (department : String) (semester : String) (year : Int) (tenant_id : Nat)
    (primary_instructor_id : Nat) (description : Option String)
    (max_students : Option Int) : Except SvcError (Course × DB) :=
  match get_by_code db code tenant_id with
  | Except.error e => Except.error e
  | Except.ok (some _) => Except.error SvcError.DuplicateCode
  | Except.ok none =>
    let course : Course :=
      { id := db.nextId, name := name, code := code,
        description := description, semester := semester, year := year,
        department := department, max_students := max_students,
        enrollment_deadline := none, is_active := true,
        auto_approval := false, tenant_id := tenant_id }
    match insert_course db course with
    | Except.error e => Except.error e
    | Except.ok db2 =>
      let ci : CourseInstructor :=
        { id := db2.nextId, course_id := course.id,
          instructor_id := primary_instructor_id,
          role := InstructorRole.PRIMARY_INSTRUCTOR, is_active := true,
          tenant_id := tenant_id }
      match insert_instructor db2 ci with
      | Except.error e => Except.error e
      | Except.ok db3 => Except.ok (course, db3)

/-- CourseService.add_instructor: rejects an existing active assignment with
the same role, then creates the assignment. -/
def add_instructor (db : DB) (course_id : Nat) (instructor_id : Nat)
    (role : InstructorRole) (tenant_id : Nat) :
    Except SvcError (CourseInstructor × DB) :=
  if (get_by_course_and_instructor db course_id instructor_id).any
       (fun a => a.role == role && a.is_active)
  then Except.error SvcError.DuplicateAssignment
  else
    let ci : CourseInstructor :=
      { id := db.nextId, course_id := course_id,
        instructor_id := instructor_id, role := role, is_active := true,
        tenant_id := tenant_id }
    match insert_instructor db ci with
    | Except.error e => Except.error e
    | Except.ok db2 => Except.ok (ci, db2)

/-- CourseService.enroll_student: rejects an ACTIVE enrollment of the pair
(lookup not tenant scoped), requires the course under the tenant, requires
enrollment_open, then creates the enrollment with status ACTIVE when
auto_approve or course.auto_approval holds and PENDING otherwise. -/
def enroll_student (db : DB) (now : Int) (course_id : Nat) (student_id : Nat)
    (tenant_id : Nat) (enrollment_method : EnrollmentMethod)
    (auto_approve : Bool) : Except SvcError (CourseEnrollment × DB) :=
  match get_by_course_and_student db course_id student_id with
  | Except.error e => Except.error e
  | Except.ok existing =>
    if (match existing with
        | some e => e.status == EnrollmentStatus.ACTIVE
        | none => false)
    then Except.error SvcError.AlreadyEnrolled
    else
      match get_by_id_and_tenant db course_id tenant_id with
      | Except.error e => Except.error e
      | Except.ok none => Except.error SvcError.CourseNotFound
      | Except.ok (some course) =>
        if !(enrollment_open db now course)
        then Except.error SvcError.EnrollmentClosed
        else
          let status := if auto_approve || course.auto_approval
                        then EnrollmentStatus.ACTIVE
                        else EnrollmentStatus.PENDING
          let e : CourseEnrollment :=
            { id := db.nextId, course_id := course_id,
              student_id := student_id, status := status,
              enrollment_method := enrollment_method, tenant_id := tenant_id }
          match insert_enrollment db e with
          | Except.error err => Except.error err
          | Except.ok db2 => Except.ok (e, db2)

/-- CourseService.approve_enrollment: requires the enrollment, requires
status PENDING, re-checks capacity through a plain (not tenant scoped)
course lookup that is skipped when the course row is gone, then sets the
status to ACTIVE and commits. -/
def approve_enrollment (db : DB) (enrollment_id : Nat) :
    Except SvcError (CourseEnrollment × DB) :=
  match enrollment_get_by_id db enrollment_id with
  | Except.error e => Except.error e
  | Except.ok none => Except.error SvcError.NotFound
  | Except.ok (some e) =>
    if e.status != EnrollmentStatus.PENDING
    then Except.error SvcError.InvalidState
    else
      match course_get_by_id db e.course_id with
      | Except.error err => Except.error err
      | Except.ok courseOpt =>
        if (match courseOpt with
            | some c => is_full db c
            | none => false)
        then Except.error SvcError.CourseFull
        else
          let e2 := { e with status := EnrollmentStatus.ACTIVE }
          Except.ok (e2, update_enrollment db e2)

/-- Filtering loop of CourseService.bulk_enroll_students: keeps each
student_id whose existing enrollment is absent or not ACTIVE; each lookup
may itself raise. -/
def filter_not_active (db : DB) (course_id : Nat) :
    List Nat → Except SvcError (List Nat)
  | [] => Except.ok []
  | sid :: rest =>
    match get_by_course_and_student db course_id sid with
    | Except.error e => Except.error e
    | Except.ok existing =>
      match filter_not_active db course_id rest with
      | Except.error e => Except.error e
      | Except.ok tail =>
        if (match existing with
            | none => true
            | some e => e.status != EnrollmentStatus.ACTIVE)
        then Except.ok (sid :: tail)
        else Except.ok tail

/-- CourseEnrollmentRepository.bulk_enroll_students: creates one ACTIVE
enrollment per student id, resolving the tenant from the course row, and
commits them in one transaction; any constraint violation fails the whole
call (rollback). -/
def repo_bulk_enroll_students (db : DB) (course_id : Nat)
    (student_ids : List Nat) (enrollment_method : EnrollmentMethod) :
    Except SvcError (List CourseEnrollment × DB) :=
  match student_ids with
  | [] => Except.ok ([], db)
  | sid :: rest =>
    match get_course_tenant_id db course_id with
    | Except.error e => Except.error e
    | Except.ok tenant =>
      let e : CourseEnrollment :=
        { id := db.nextId, course_id := course_id, student_id := sid,
          status := EnrollmentStatus.ACTIVE,
          enrollment_method := enrollment_method, tenant_id := tenant }
      match insert_enrollment db e with
      | Except.error err => Except.error err
      | Except.ok db2 =>
        match repo_bulk_enroll_students db2 course_id rest enrollment_method with
        | Except.error err => Except.error err
        | Except.ok (es, db3) => Except.ok (e :: es, db3)

/-- CourseService.bulk_enroll_students: requires the course under the tenant,
filters out the already ACTIVE student ids, and delegates to the repository
bulk insert.  No capacity or enrollment_open check appears. -/
def bulk_enroll_students (db : DB) (course_id : Nat) (student_ids : List Nat)
    (tenant_id : Nat) (enrollment_method : EnrollmentMethod) :
    Except SvcError (List CourseEnrollment × DB) :=
  match get_by_id_and_tenant db course_id tenant_id with
  | Except.error e => Except.error e
  | Except.ok none => Except.error SvcError.CourseNotFound
  | Except.ok (some _) =>
    match filter_not_active db course_id student_ids with
    | Except.error e => Except.error e
    | Except.ok filtered =>
      repo_bulk_enroll_students db course_id filtered enrollment_method

/-- ProjectService.create_project: permission first, then the three date and
size validations in source order, then the insert. -/
def create_project (db : DB) (course_id : Nat) (name : String)
    (start_date : Int) (due_date : Int) (team_formation_deadline : Int)
    (tenant_id : Nat) (instructor_id : Nat) (description : Option String)
    (min_team_size : Int) (max_team_size : Int) :
    Except SvcError (Project × DB) :=
  match check_instructor_permission db course_id instructor_id with
  | Except.error e => Except.error e
  | Except.ok has_permission =>
    if !has_permission then Except.error SvcError.PermissionDenied
    else if start_date ≥ due_date then Except.error SvcError.InvalidDateRange
    else if team_formation_deadline > due_date then
      Except.error SvcError.InvalidDeadline
    else if min_team_size > max_team_size then
      Except.error SvcError.InvalidTeamSize
    else
      let p : Project :=
        { id := db.nextId, course_id := course_id, name := name,
          description := description, start_date := start_date,
          due_date := due_date,
          team_formation_deadline := team_formation_deadline,
          min_team_size := min_team_size, max_team_size := max_team_size,
          allow_individual_work := false, auto_team_formation := true,
          manual_team_creation := true, is_active := true,
          is_published := false, requires_approval := false,
          tenant_id := tenant_id }
      match insert_project db p with
      | Except.error e => Except.error e
      | Except.ok db2 => Except.ok (p, db2)

/-- ProjectService.publish_project: requires the project and permission on
its course, then sets is_published and commits. -/
def publish_project (db : DB) (project_id : Nat) (instructor_id : Nat) :
    Except SvcError (Project × DB) :=
  match project_get_by_id db project_id with
  | Except.error e => Except.error e
  | Except.ok none => Except.error SvcError.NotFound
  | Except.ok (some p) =>
    match check_instructor_permission db p.course_id instructor_id with
    | Except.error e => Except.error e
    | Except.ok has_permission =>
      if !has_permission then Except.error SvcError.PermissionDenied
      else
        let p2 := { p with is_published := true }
        Except.ok (p2, update_project db p2)

/-- Application of the supplied optional fields of
update_team_formation_settings to the loaded project. -/
def apply_settings (p : Project) (min_team_size : Option Int)
    (max_team_size : Option Int) (team_formation_deadline : Option Int)
    (allow_individual_work : Option Bool) (auto_team_formation : Option Bool) :
    Project :=
  let p := match min_team_size with
           | some v => { p with min_team_size := v }
           | none => p
  let p := match max_team_size with
           | some v => { p with max_team_size := v }
           | none => p
  let p := match team_formation_deadline with
           | some v => { p with team_formation_deadline := v }
           | none => p
  let p := match allow_individual_work with
           | some v => { p with allow_individual_work := v }
           | none => p
  let p := match auto_team_formation with
           | some v => { p with auto_team_formation := v }
           | none => p
  p

/-- ProjectService.update_team_formation_settings: requires the project and
permission, applies the supplied fields, validates the resulting state, and
only then commits. -/
def update_team_formation_settings (db : DB) (project_id : Nat)
    (instructor_id : Nat) (min_team_size : Option Int)
    (max_team_size : Option Int) (team_formation_deadline : Option Int)
    (allow_individual_work : Option Bool) (auto_team_formation : Option Bool) :
    Except SvcError (Project × DB) :=
  match project_get_by_id db project_id with
  | Except.error e => Except.error e
  | Except.ok none => Except.error SvcError.NotFound
  | Except.ok (some p) =>
    match check_instructor_permission db p.course_id instructor_id with
    | Except.error e => Except.error e
    | Except.ok has_permission =>
      if !has_permission then Except.error SvcError.PermissionDenied
      else
        let p2 := apply_settings p min_team_size max_team_size
                    team_formation_deadline allow_individual_work
                    auto_team_formation
        if p2.min_team_size > p2.max_team_size then
          Except.error SvcError.InvalidTeamSize
        else if p2.team_formation_deadline > p2.due_date then
          Except.error SvcError.InvalidDeadline
        else Except.ok (p2, update_project db p2)

/-- Committed state after a call to update_team_formation_settings: on any
raise the per request session is rolled back, so the committed state is the
prior one. -/
def run_update_team_formation (db : DB) (project_id : Nat)
    (instructor_id : Nat) (min_team_size : Option Int)
    (max_team_size : Option Int) (team_formation_deadline : Option Int)
    (allow_individual_work : Option Bool) (auto_team_formation : Option Bool) :
    DB :=
  match update_team_formation_settings db project_id instructor_id
      min_team_size max_team_size team_formation_deadline
      allow_individual_work auto_team_formation with
  | Except.ok (_, db2) => db2
  | Except.error _ => db

/-- Renaming of the role tags of every assignment; every query of the
services ignores the role column, which the invariance theorems express. -/
def map_roles (f : InstructorRole → InstructorRole) (db : DB) : DB :=
  { db with instructors :=
      db.instructors.map (fun a => { a with role := f a.role }) }

/-- Rewriting of the capacity column of every course; bulk enrollment never
reads it, which the capacity bypass theorem expresses. -/
def set_max_students (db : DB) (m : Option Int) : DB :=
  { db with courses := db.courses.map (fun c => { c with max_students := m }) }

deriving instance DecidableEq for Except

/-
Concrete database states used by the closed counterexample and witness
theorems below.  Tenant 1 is the calling tenant throughout; course 1 is an
open course (active, no deadline, no capacity unless stated).
-/

/-- Open course of tenant 1 with unbounded capacity. -/
def wCourse : Course :=
  { id := 1, name := "Intro to CS", code := "CS101", description := none,
    semester := "Fall", year := 2024, department := "CS", max_students := none,
    enrollment_deadline := none, is_active := true, auto_approval := false,
    tenant_id := 1 }

/-- Same course owned by tenant 2. -/
def wCourseT2 : Course := { wCourse with tenant_id := 2 }

/-- Same course with capacity one. -/
def wCourseCap1 : Course := { wCourse with max_students := some 1 }

/-- Same course with capacity zero (already full while empty). -/
def wCourseMax0 : Course := { wCourse with max_students := some 0 }

/-- Dropped enrollment of student 5 in course 1. -/
def wDropped : CourseEnrollment :=
  { id := 2, course_id := 1, student_id := 5,
    status := EnrollmentStatus.DROPPED,
    enrollment_method := EnrollmentMethod.SELF_ENROLLED, tenant_id := 1 }

/-- Active enrollment of student 5 in course 1. -/
def wActiveE : CourseEnrollment :=
  { id := 2, course_id := 1, student_id := 5,
    status := EnrollmentStatus.ACTIVE,
    enrollment_method := EnrollmentMethod.SELF_ENROLLED, tenant_id := 1 }

/-- Pending enrollment of student 8 in course 1. -/
def wPendingE : CourseEnrollment :=
  { id := 6, course_id := 1, student_id := 8,
    status := EnrollmentStatus.PENDING,
    enrollment_method := EnrollmentMethod.SELF_ENROLLED, tenant_id := 1 }

/-- Pending enrollment of student 8 whose course row 3 does not exist. -/
def wPending10 : CourseEnrollment :=
  { id := 6, course_id := 3, student_id := 8,
    status := EnrollmentStatus.PENDING,
    enrollment_method := EnrollmentMethod.SELF_ENROLLED, tenant_id := 1 }

/-- Active co-instructor assignment of instructor 7 on course 1. -/
def wCo : CourseInstructor :=
  { id := 3, course_id := 1, instructor_id := 7,
    role := InstructorRole.CO_INSTRUCTOR, is_active := true, tenant_id := 1 }

/-- Second active assignment of the same instructor with another role. -/
def wTA : CourseInstructor :=
  { wCo with id := 4, role := InstructorRole.TEACHING_ASSISTANT }

/-- Project 9 of course 1 with window 0..10, formation deadline 5, sizes
3..6. -/
def wProject : Project :=
  { id := 9, course_id := 1, name := "P", description := none,
    start_date := 0, due_date := 10, team_formation_deadline := 5,
    min_team_size := 3, max_team_size := 6, allow_individual_work := false,
    auto_team_formation := true, manual_team_creation := true,
    is_active := true, is_published := false, requires_approval := false,
    tenant_id := 1 }

/-- State with a DROPPED prior enrollment of the pair. -/
def db_dropped_prior : DB :=
  { courses := [wCourse], instructors := [], projects := [],
    enrollments := [wDropped], nextId := 10 }

/-- State with an ACTIVE prior enrollment of the pair. -/
def db_active_prior : DB :=
  { courses := [wCourse], instructors := [], projects := [],
    enrollments := [wActiveE], nextId := 10 }

/-- State where course 1 belongs to tenant 2 and student 5 is ACTIVE there. -/
def db_cross_tenant : DB :=
  { courses := [wCourseT2], instructors := [], projects := [],
    enrollments := [{ wActiveE with tenant_id := 2 }], nextId := 10 }

/-- State with a PENDING enrollment pointing at a missing course row. -/
def db_orphan_pending : DB :=
  { courses := [wCourse], instructors := [], projects := [],
    enrollments := [wPending10], nextId := 10 }

/-- State where course 1 has capacity one, one ACTIVE and one PENDING
enrollment. -/
def db_at_capacity : DB :=
  { courses := [wCourseCap1], instructors := [], projects := [],
    enrollments := [wActiveE, wPendingE], nextId := 10 }

/-- State with a PENDING prior enrollment of student 8 on an open course. -/
def db_pending_prior : DB :=
  { courses := [wCourse], instructors := [], projects := [],
    enrollments := [wPendingE], nextId := 10 }

/-- State where course 1 is full (capacity zero) and student 5 is ACTIVE. -/
def db_bulk : DB :=
  { courses := [wCourseMax0], instructors := [], projects := [],
    enrollments := [wActiveE], nextId := 10 }

/-- State where instructor 7 holds two active assignments on course 1. -/
def db_two_roles : DB :=
  { courses := [wCourse], instructors := [wCo, wTA], projects := [],
    enrollments := [], nextId := 20 }

/-- State where instructor 7 holds exactly one active assignment. -/
def db_one_role : DB :=
  { courses := [wCourse], instructors := [wCo], projects := [],
    enrollments := [], nextId := 20 }

/-- State with project 9 and a single active assignment of instructor 7. -/
def db_proj : DB :=
  { courses := [wCourse], instructors := [wCo], projects := [wProject],
    enrollments := [], nextId := 20 }

/-- Helper: the filtering loop keeps exactly the student ids with no
enrollment row, when every supplied id has either no row or an ACTIVE row. -/
theorem filter_not_active_ok (db : DB) (cid : Nat) (sids : List Nat)
    (h : ∀ sid ∈ sids,
      db.enrollments.filter
        (fun x => x.course_id == cid && x.student_id == sid) = [] ∨
      ∃ e, db.enrollments.filter
        (fun x => x.course_id == cid && x.student_id == sid) = [e] ∧
        e.status = EnrollmentStatus.ACTIVE) :
    filter_not_active db cid sids =
      Except.ok (sids.filter (fun sid =>
        decide (db.enrollments.filter
          (fun x => x.course_id == cid && x.student_id == sid) = []))) := by
  induction sids with
  | nil => rfl
  | cons sid rest ih =>
    have hrest := ih (fun s hs => h s (List.mem_cons_of_mem _ hs))
    rcases h sid (List.mem_cons_self _ _) with hnil | ⟨e, he, hact⟩
    · simp only [filter_not_active, get_by_course_and_student,
        scalar_one_or_none, hnil, hrest, List.filter_cons]
      simp [hnil]
    · simp only [filter_not_active, get_by_course_and_student,
        scalar_one_or_none, he, hrest, List.filter_cons]
      simp [he, hact]

/-- Helper: the repository bulk insert succeeds and appends one ACTIVE
enrollment per student id when no id has an existing row, the ids are
distinct, and the existing row identifiers are below the allocator. -/
theorem repo_bulk_ok (cid : Nat) (method : EnrollmentMethod) :
    ∀ (sids : List Nat) (db : DB) (course : Course),
    db.courses.filter (fun c => c.id == cid) = [course] →
    (∀ x ∈ db.enrollments, x.id < db.nextId) →
    (∀ sid ∈ sids, db.enrollments.filter
      (fun x => x.course_id == cid && x.student_id == sid) = []) →
    sids.Nodup →
    ∃ es db3,
      repo_bulk_enroll_students db cid sids method = Except.ok (es, db3) ∧
      es.map (fun e => e.student_id) = sids ∧
      (∀ e ∈ es, e.status = EnrollmentStatus.ACTIVE ∧ e.course_id = cid ∧
        e.tenant_id = course.tenant_id) ∧
      db3.enrollments = db.enrollments ++ es ∧
      db3.courses = db.courses := by
  intro sids
  induction sids with
  | nil =>
    intro db course hc hids hpair hnodup
    exact ⟨[], db, rfl, rfl, by simp, by simp, rfl⟩
  | cons sid rest ih =>
    intro db course hc hids hpair hnodup
    have htenant : get_course_tenant_id db cid = Except.ok course.tenant_id := by
      simp only [get_course_tenant_id, hc]
    have hanyid : db.enrollments.any (fun x => x.id == db.nextId) = false := by
      rw [List.any_eq_false]
      intro x hx
      have := hids x hx
      simp only [beq_iff_eq]
      omega
    have hanypair : db.enrollments.any
        (fun x => x.course_id == cid && x.student_id == sid) = false := by
      rw [List.any_eq_false]
      exact List.filter_eq_nil_iff.mp (hpair sid (List.mem_cons_self _ _))
    have hc2 : ((⟨db.courses, db.instructors, db.projects,
        db.enrollments ++ [⟨db.nextId, cid, sid, EnrollmentStatus.ACTIVE,
          method, course.tenant_id⟩], db.nextId + 1⟩ : DB)).courses.filter
          (fun c => c.id == cid) = [course] := hc
    have hids2 : ∀ x ∈ ((⟨db.courses, db.instructors, db.projects,
        db.enrollments ++ [⟨db.nextId, cid, sid, EnrollmentStatus.ACTIVE,
          method, course.tenant_id⟩], db.nextId + 1⟩ : DB)).enrollments,
        x.id < db.nextId + 1 := by
      intro x hx
      simp only [List.mem_append, List.mem_singleton] at hx
      rcases hx with hx | hx
      · have := hids x hx
        omega
      · subst hx
        show db.nextId < db.nextId + 1
        omega
    have hpair2 : ∀ s ∈ rest, ((⟨db.courses, db.instructors, db.projects,
        db.enrollments ++ [⟨db.nextId, cid, sid, EnrollmentStatus.ACTIVE,
          method, course.tenant_id⟩], db.nextId + 1⟩ : DB)).enrollments.filter
          (fun x => x.course_id == cid && x.student_id == s) = [] := by
      intro s hs
      have hno : sid ≠ s := by
        intro hss
        exact (List.nodup_cons.mp hnodup).1 (hss ▸ hs)
      simp only [List.filter_append]
      rw [hpair s (List.mem_cons_of_mem _ hs)]
      simp [hno]
    obtain ⟨es, db3, hrun, hmap, hflds, henr, hcrs⟩ :=
      ih _ course hc2 hids2 hpair2 (List.nodup_cons.mp hnodup).2
    refine ⟨(⟨db.nextId, cid, sid, EnrollmentStatus.ACTIVE, method,
        course.tenant_id⟩ : CourseEnrollment) :: es, db3, ?_, ?_, ?_, ?_, ?_⟩
    · simp only [repo_bulk_enroll_students, htenant, insert_enrollment,
        hanyid, hanypair]
      simp only [Bool.or_self, Bool.false_eq_true, if_false]
      rw [hrun]
    · simp [hmap]
    · intro e he
      rcases List.mem_cons.mp he with rfl | he2
      · exact ⟨rfl, rfl, rfl⟩
      · exact hflds e he2
    · rw [henr]
      simp
    · exact hcrs

/-- Helper: rewriting max_students leaves every course filter on id and
tenant columns pointwise unchanged up to the rewriting map. -/
theorem set_max_filter_courses (db : DB) (m : Option Int)
    (p : Course → Bool)
    (hp : ∀ c, p { c with max_students := m } = p c) :
    (set_max_students db m).courses.filter p =
      (db.courses.filter p).map (fun c => { c with max_students := m }) := by
  show (db.courses.map (fun c => { c with max_students := m })).filter p =
    (db.courses.filter p).map (fun c => { c with max_students := m })
  rw [List.filter_map]
  congr 1
  apply List.filter_congr
  intro c hc
  exact hp c

/-- Helper: the pair lookup never reads the capacity column. -/
theorem get_pair_set_max (db : DB) (m : Option Int) (cid sid : Nat) :
    get_by_course_and_student (set_max_students db m) cid sid =
      get_by_course_and_student db cid sid := rfl

/-- Helper: the filtering loop ignores the capacity column. -/
theorem filter_not_active_set_max (db : DB) (m : Option Int) (cid : Nat) :
    ∀ l : List Nat,
    filter_not_active (set_max_students db m) cid l =
      filter_not_active db cid l := by
  intro l
  induction l with
  | nil => rfl
  | cons s rest ih =>
    simp only [filter_not_active, get_pair_set_max, ih]

/-- Helper: committing a new enrollment never reads the capacity column. -/
theorem insert_enrollment_set_max (db : DB) (m : Option Int)
    (e : CourseEnrollment) :
    insert_enrollment (set_max_students db m) e =
      Except.map (fun d => set_max_students d m) (insert_enrollment db e) := by
  cases hcond : (db.enrollments.any (fun x => x.id == e.id) ||
      db.enrollments.any (fun x => x.course_id == e.course_id
        && x.student_id == e.student_id)) <;>
    simp [insert_enrollment, set_max_students, Except.map, hcond]

/-- Helper: the repository bulk insert never reads the capacity column. -/
theorem repo_bulk_set_max (m : Option Int) (cid : Nat)
    (method : EnrollmentMethod) :
    ∀ (l : List Nat) (db : DB),
    repo_bulk_enroll_students (set_max_students db m) cid l method =
      Except.map (fun r => (r.1, set_max_students r.2 m))
        (repo_bulk_enroll_students db cid l method) := by
  intro l
  induction l with
  | nil =>
    intro db
    rfl
  | cons s rest ih =>
    intro db
    have htc : get_course_tenant_id (set_max_students db m) cid =
        get_course_tenant_id db cid := by
      simp only [get_course_tenant_id]
      rw [set_max_filter_courses db m (fun c => c.id == cid) (fun c => rfl)]
      cases hf : db.courses.filter (fun c => c.id == cid) with
      | nil => rfl
      | cons c t =>
        cases t with
        | nil => rfl
        | cons c2 t2 => rfl
    simp only [repo_bulk_enroll_students, htc]
    cases hten : get_course_tenant_id db cid with
    | error e => rfl
    | ok tenant =>
      simp only []
      rw [show ((set_max_students db m).nextId) = db.nextId from rfl,
        insert_enrollment_set_max]
      cases hins : insert_enrollment db
          ⟨db.nextId, cid, s, EnrollmentStatus.ACTIVE, method, tenant⟩ with
      | error e => rfl
      | ok db2 =>
        simp only [Except.map]
        rw [ih db2]
        cases hrec : repo_bulk_enroll_students db2 cid rest method with
        | error e => rfl
        | ok r =>
          cases r with
          | mk es db3 => rfl

/-- C1: approve_enrollment fails with NotFound when no enrollment has the
given id, with InvalidState when the status is not PENDING, and with
CourseFull when the course row exists and is at capacity, capacity being
re-checked at approval time: with max_students = N and at least N ACTIVE
enrollments a further PENDING approval is rejected; on success the status
becomes ACTIVE and the updated row is persisted. -/
theorem C1_approve_enrollment_spec (db : DB) (eid : Nat) :
    ((db.enrollments.filter (fun x => x.id == eid) = []) →
      approve_enrollment db eid = Except.error SvcError.NotFound) ∧
    (∀ e, db.enrollments.filter (fun x => x.id == eid) = [e] →
      e.status ≠ EnrollmentStatus.PENDING →
      approve_enrollment db eid = Except.error SvcError.InvalidState) ∧
    (∀ e c, db.enrollments.filter (fun x => x.id == eid) = [e] →
      e.status = EnrollmentStatus.PENDING →
      db.courses.filter (fun x => x.id == e.course_id) = [c] →
      is_full db c = true →
      approve_enrollment db eid = Except.error SvcError.CourseFull) ∧
    (∀ e c (N : Int), db.enrollments.filter (fun x => x.id == eid) = [e] →
      e.status = EnrollmentStatus.PENDING →
      db.courses.filter (fun x => x.id == e.course_id) = [c] →
      c.max_students = some N →
      N ≤ (current_enrollment_count db c : Int) →
      approve_enrollment db eid = Except.error SvcError.CourseFull) ∧
    (∀ e c, db.enrollments.filter (fun x => x.id == eid) = [e] →
      e.status = EnrollmentStatus.PENDING →
      db.courses.filter (fun x => x.id == e.course_id) = [c] →
      is_full db c = false →
      approve_enrollment db eid =
        Except.ok ({ e with status := EnrollmentStatus.ACTIVE },
          update_enrollment db { e with status := EnrollmentStatus.ACTIVE })) := by
  refine ⟨?_, ?_, ?_, ?_, ?_⟩
  · intro h
    simp only [approve_enrollment, enrollment_get_by_id, scalar_one_or_none, h]
  · intro e he hs
    simp only [approve_enrollment, enrollment_get_by_id, scalar_one_or_none, he]
    have hb : (e.status != EnrollmentStatus.PENDING) = true := by
      simp [bne_iff_ne, hs]
    simp [hb]
  · intro e c he hp hc hfull
    simp only [approve_enrollment, enrollment_get_by_id, course_get_by_id,
      scalar_one_or_none, he, hc, hp]
    simp [hfull]
  · intro e c N he hp hc hmax hcount
    have hfull : is_full db c = true := by
      simp [is_full, hmax, ge_iff_le, hcount]
    simp only [approve_enrollment, enrollment_get_by_id, course_get_by_id,
      scalar_one_or_none, he, hc, hp]
    simp [hfull]
  · intro e c he hp hc hfull
    simp only [approve_enrollment, enrollment_get_by_id, course_get_by_id,
      scalar_one_or_none, he, hc, hp]
    simp [hfull]


/-- C1 witness: a course with capacity one and one ACTIVE enrollment rejects
the approval of a further PENDING enrollment with CourseFull. -/
theorem C1_witness :
    (db_at_capacity.enrollments.filter (fun x => x.id == 6) = [wPendingE]) ∧
    wCourseCap1.max_students = some 1 ∧
    (1 : Int) ≤ (current_enrollment_count db_at_capacity wCourseCap1 : Int) ∧
    approve_enrollment db_at_capacity 6 = Except.error SvcError.CourseFull :=
  ⟨by decide, by decide, by decide,
    (C1_approve_enrollment_spec db_at_capacity 6).2.2.2.1 wPendingE wCourseCap1 1
      (by decide) (by decide) (by decide) (by decide) (by decide)⟩


/-- C2: enrolling while an ACTIVE enrollment of the pair exists fails with
AlreadyEnrolled, but re-enrolling the pair after its status became DROPPED
does not create a new record: the insert violates the (course_id,
student_id) unique constraint uq_course_student_enrollment and the call
fails with IntegrityError, against the claim and the spec sentence that the
re-enrollment succeeds. -/
theorem C2_reenroll_after_drop_eval :
    enroll_student db_active_prior 0 1 5 1 EnrollmentMethod.SELF_ENROLLED
      false = Except.error SvcError.AlreadyEnrolled ∧
    wDropped.status = EnrollmentStatus.DROPPED ∧
    enrollment_open db_dropped_prior 0 wCourse = true ∧
    enroll_student db_dropped_prior 0 1 5 1 EnrollmentMethod.SELF_ENROLLED
      false = Except.error SvcError.IntegrityError :=
  ⟨by decide, by decide, by decide, by decide⟩


/-- C3 amended: a cross tenant enroll_student call fails with CourseNotFound
whenever the student holds no ACTIVE enrollment of the pair; because the
enrollment lookup is not tenant scoped, an existing ACTIVE enrollment on the
cross tenant course makes the call fail with AlreadyEnrolled instead,
leaking the existence of the course. -/
theorem C3_cross_tenant_spec (db : DB) (now : Int) (cid sid T : Nat)
    (method : EnrollmentMethod) (ap : Bool)
    (hten : ∀ c ∈ db.courses, c.id = cid → c.tenant_id ≠ T) :
    ((db.enrollments.filter
        (fun x => x.course_id == cid && x.student_id == sid) = [] ∨
      ∃ e, db.enrollments.filter
        (fun x => x.course_id == cid && x.student_id == sid) = [e] ∧
        e.status ≠ EnrollmentStatus.ACTIVE) →
      enroll_student db now cid sid T method ap =
        Except.error SvcError.CourseNotFound) ∧
    (∀ e, db.enrollments.filter
        (fun x => x.course_id == cid && x.student_id == sid) = [e] →
      e.status = EnrollmentStatus.ACTIVE →
      enroll_student db now cid sid T method ap =
        Except.error SvcError.AlreadyEnrolled) := by
  have hnone : db.courses.filter (fun c => c.id == cid && c.tenant_id == T) = [] := by
    rw [List.filter_eq_nil_iff]
    intro c hcmem
    simp only [Bool.and_eq_true, beq_iff_eq, not_and]
    intro hid hT
    exact hten c hcmem hid hT
  constructor
  · rintro (hnil | ⟨e, he, hne⟩)
    · simp only [enroll_student, get_by_course_and_student, get_by_id_and_tenant,
        scalar_one_or_none, hnil, hnone]
      simp
    · have hb : (e.status == EnrollmentStatus.ACTIVE) = false := by
        simp [beq_eq_false_iff_ne, hne]
      simp only [enroll_student, get_by_course_and_student, get_by_id_and_tenant,
        scalar_one_or_none, he, hnone, hb]
      simp
  · intro e he hact
    simp only [enroll_student, get_by_course_and_student, scalar_one_or_none, he, hact]
    simp


/-- C3 counterexample: tenant 1 calls enroll_student on course 1, which
belongs to tenant 2 and on which student 5 is ACTIVE; the call reports
AlreadyEnrolled where the claim requires CourseNotFound. -/
theorem C3_counterexample :
    wCourseT2.tenant_id = 2 ∧
    ({ wActiveE with tenant_id := 2 } : CourseEnrollment).status =
      EnrollmentStatus.ACTIVE ∧
    enroll_student db_cross_tenant 0 1 5 1 EnrollmentMethod.SELF_ENROLLED
      false = Except.error SvcError.AlreadyEnrolled :=
  ⟨by decide, by decide, by decide⟩


/-- C3 witness: with no prior enrollment of student 9 the cross tenant call
fails with CourseNotFound. -/
theorem C3_witness :
    (∀ c ∈ db_cross_tenant.courses, c.id = 1 → c.tenant_id ≠ 1) ∧
    enroll_student db_cross_tenant 0 1 9 1 EnrollmentMethod.SELF_ENROLLED false =
      Except.error SvcError.CourseNotFound :=
  ⟨by decide,
    (C3_cross_tenant_spec db_cross_tenant 0 1 9 1 EnrollmentMethod.SELF_ENROLLED false
      (by decide)).1 (Or.inl (by decide))⟩

/-- C4: create_course fails with DuplicateCode exactly when a course with the
same (tenant_id, code) exists in the tenant, so the same code under another
tenant is accepted; on success it appends the new course and exactly one
active instructor assignment with role PRIMARY_INSTRUCTOR for the supplied
primary instructor, leaving every other table untouched. -/
theorem C4_create_course_spec (db : DB) (cname code department semester : String)
    (year : Int) (T pinstr : Nat) (descr : Option String) (maxS : Option Int) :
    (∀ c, db.courses.filter (fun x => x.code == code && x.tenant_id == T) = [c] →
      create_course db cname code department semester year T pinstr descr maxS =
        Except.error SvcError.DuplicateCode) ∧
    (db.courses.filter (fun x => x.code == code && x.tenant_id == T) = [] →
      (∀ c ∈ db.courses, c.id ≠ db.nextId) →
      (∀ a ∈ db.instructors, a.id ≠ db.nextId + 1) →
      (∀ a ∈ db.instructors, a.course_id ≠ db.nextId) →
      create_course db cname code department semester year T pinstr descr maxS =
        Except.ok
          (⟨db.nextId, cname, code, descr, semester, year, department, maxS,
            none, true, false, T⟩,
           ⟨db.courses ++ [⟨db.nextId, cname, code, descr, semester, year,
              department, maxS, none, true, false, T⟩],
            db.instructors ++ [⟨db.nextId + 1, db.nextId, pinstr,
              InstructorRole.PRIMARY_INSTRUCTOR, true, T⟩],
            db.projects, db.enrollments, db.nextId + 1 + 1⟩)) := by
  constructor
  · intro c hdup
    simp only [create_course, get_by_code, scalar_one_or_none, hdup]
  · intro hdup h1 h2 h3
    have hanyid : db.courses.any (fun x => x.id == db.nextId) = false := by
      rw [List.any_eq_false]
      intro x hx
      simpa using h1 x hx
    have hanydup : db.courses.any
        (fun x => x.tenant_id == T && x.code == code) = false := by
      rw [List.any_eq_false]
      intro x hx
      have := List.filter_eq_nil_iff.mp hdup x hx
      simp only [Bool.and_eq_true, beq_iff_eq, not_and] at this ⊢
      intro hT hcode
      exact this hcode hT
    have hanyid2 : db.instructors.any (fun x => x.id == db.nextId + 1) = false := by
      rw [List.any_eq_false]
      intro x hx
      simpa using h2 x hx
    have hanytrip : db.instructors.any
        (fun x => x.course_id == db.nextId && x.instructor_id == pinstr &&
          x.role == InstructorRole.PRIMARY_INSTRUCTOR) = false := by
      rw [List.any_eq_false]
      intro x hx
      simp only [Bool.and_eq_true, beq_iff_eq]
      rintro ⟨⟨hcid, hmm⟩, hr⟩
      exact h3 x hx hcid
    simp only [create_course, get_by_code, scalar_one_or_none, hdup,
      insert_course, insert_instructor]
    simp [hanyid, hanydup, hanyid2, hanytrip]

/-- C4 witness: the duplicate code CS101 is rejected inside tenant 1 and the
same code is accepted by tenant 2, producing the course plus one active
PRIMARY_INSTRUCTOR assignment. -/
theorem C4_witness :
    (db_pending_prior.courses.filter
      (fun x => x.code == "CS101" && x.tenant_id == 1) = [wCourse]) ∧
    create_course db_pending_prior "Newton" "CS101" "CS" "Fall" 2024 1 7
      none none = Except.error SvcError.DuplicateCode ∧
    (db_pending_prior.courses.filter
      (fun x => x.code == "CS101" && x.tenant_id == 2) = []) ∧
    create_course db_pending_prior "Newton" "CS101" "CS" "Fall" 2024 2 7
      none none =
      Except.ok
        (⟨10, "Newton", "CS101", none, "Fall", 2024, "CS", none,
          none, true, false, 2⟩,
         ⟨db_pending_prior.courses ++ [⟨10, "Newton", "CS101", none, "Fall",
            2024, "CS", none, none, true, false, 2⟩],
          db_pending_prior.instructors ++ [⟨11, 10, 7,
            InstructorRole.PRIMARY_INSTRUCTOR, true, 2⟩],
          db_pending_prior.projects, db_pending_prior.enrollments, 12⟩) :=
  ⟨by decide,
   (C4_create_course_spec db_pending_prior "Newton" "CS101" "CS" "Fall" 2024
      1 7 none none).1 wCourse (by decide),
   by decide,
   (C4_create_course_spec db_pending_prior "Newton" "CS101" "CS" "Fall" 2024
      2 7 none none).2 (by decide) (by decide) (by decide) (by decide)⟩

/-- C5 amended: given the course exists under the tenant, enroll_student
fails with EnrollmentClosed exactly when enrollment_open is false, where
enrollment_open equals is_active and (no deadline or now at most the
deadline) and not is_full, and is_full holds exactly when max_students is
set and the ACTIVE count has reached it; when open and no enrollment row
exists for the pair, a row is created whose status is ACTIVE when
auto_approve or course.auto_approval holds and PENDING otherwise; when open
and a non ACTIVE row for the pair exists, the insert violates the pair
unique constraint and the call fails with IntegrityError instead of
creating a record. -/
theorem C5_enroll_student_spec (db : DB) (now : Int) (cid sid T : Nat)
    (method : EnrollmentMethod) (ap : Bool) (course : Course)
    (hc : db.courses.filter (fun c => c.id == cid && c.tenant_id == T) = [course]) :
    (enrollment_open db now course =
      (course.is_active &&
        (match course.enrollment_deadline with
         | none => true
         | some d => decide (now ≤ d)) &&
        !(is_full db course))) ∧
    (is_full db course =
      (match course.max_students with
       | none => false
       | some m => decide ((current_enrollment_count db course : Int) ≥ m))) ∧
    (db.enrollments.filter
        (fun x => x.course_id == cid && x.student_id == sid) = [] →
      (enroll_student db now cid sid T method ap =
          Except.error SvcError.EnrollmentClosed ↔
        enrollment_open db now course = false)) ∧
    (db.enrollments.filter
        (fun x => x.course_id == cid && x.student_id == sid) = [] →
      enrollment_open db now course = true →
      (∀ x ∈ db.enrollments, x.id ≠ db.nextId) →
      enroll_student db now cid sid T method ap =
        Except.ok
          ({ id := db.nextId, course_id := cid, student_id := sid,
             status := if ap || course.auto_approval then EnrollmentStatus.ACTIVE
                       else EnrollmentStatus.PENDING,
             enrollment_method := method, tenant_id := T },
           { db with
             enrollments := db.enrollments ++
               [{ id := db.nextId, course_id := cid, student_id := sid,
                  status := if ap || course.auto_approval then EnrollmentStatus.ACTIVE
                            else EnrollmentStatus.PENDING,
                  enrollment_method := method, tenant_id := T }],
             nextId := db.nextId + 1 })) ∧
    (∀ e, db.enrollments.filter
        (fun x => x.course_id == cid && x.student_id == sid) = [e] →
      e.status ≠ EnrollmentStatus.ACTIVE →
      enrollment_open db now course = true →
      enroll_student db now cid sid T method ap =
        Except.error SvcError.IntegrityError) := by
  refine ⟨?_, ?_, ?_, ?_, ?_⟩
  · cases ha : course.is_active <;>
      cases hd : course.enrollment_deadline <;>
        simp [enrollment_open, ha, hd, ← decide_not, not_le]
  · rfl
  · intro hnil
    cases hopen : enrollment_open db now course
    · simp only [enroll_student, get_by_course_and_student, get_by_id_and_tenant,
        scalar_one_or_none, hnil, hc, hopen]
      simp
    · simp only [enroll_student, get_by_course_and_student, get_by_id_and_tenant,
        scalar_one_or_none, hnil, hc, hopen]
      have hpair : db.enrollments.any
          (fun x => x.course_id == cid && x.student_id == sid) = false := by
        rw [List.any_eq_false]
        exact List.filter_eq_nil_iff.mp hnil
      cases hid : db.enrollments.any (fun x => x.id == db.nextId) <;>
        simp [insert_enrollment, hpair, hid]
  · intro hnil hopen hfresh
    have hpair : db.enrollments.any
        (fun x => x.course_id == cid && x.student_id == sid) = false := by
      rw [List.any_eq_false]
      exact List.filter_eq_nil_iff.mp hnil
    have hid : db.enrollments.any (fun x => x.id == db.nextId) = false := by
      rw [List.any_eq_false]
      intro x hx
      simpa using hfresh x hx
    simp only [enroll_student, get_by_course_and_student, get_by_id_and_tenant,
      scalar_one_or_none, hnil, hc, hopen]
    simp [insert_enrollment, hpair, hid]
  · intro e he hne hopen
    have hb : (e.status == EnrollmentStatus.ACTIVE) = false := by
      simp [beq_eq_false_iff_ne, hne]
    have hmem2 : e ∈ db.enrollments ∧
        (e.course_id == cid && e.student_id == sid) = true := by
      have hin : e ∈ db.enrollments.filter
          (fun x => x.course_id == cid && x.student_id == sid) := by
        rw [he]; exact List.mem_singleton.mpr rfl
      exact List.mem_filter.mp hin
    have hpair : db.enrollments.any
        (fun x => x.course_id == cid && x.student_id == sid) = true := by
      rw [List.any_eq_true]
      exact ⟨e, hmem2.1, hmem2.2⟩
    simp only [enroll_student, get_by_course_and_student, get_by_id_and_tenant,
      scalar_one_or_none, he, hb, hc, hopen]
    simp [insert_enrollment, hpair]


/-- C5 counterexample: student 8 holds a PENDING (hence non ACTIVE)
enrollment on the open course 1; the claim requires the call to create an
enrollment, but it fails with IntegrityError. -/
theorem C5_counterexample :
    wPendingE.status = EnrollmentStatus.PENDING ∧
    enrollment_open db_pending_prior 0 wCourse = true ∧
    enroll_student db_pending_prior 0 1 8 1 EnrollmentMethod.SELF_ENROLLED
      false = Except.error SvcError.IntegrityError :=
  ⟨by decide, by decide, by decide⟩


/-- C5 witness: with no prior row for student 9 the call creates a PENDING
enrollment on the open course. -/
theorem C5_witness :
    (db_pending_prior.courses.filter (fun c => c.id == 1 && c.tenant_id == 1) = [wCourse]) ∧
    enroll_student db_pending_prior 0 1 9 1 EnrollmentMethod.SELF_ENROLLED false =
      Except.ok
        ({ id := 10, course_id := 1, student_id := 9,
           status := EnrollmentStatus.PENDING,
           enrollment_method := EnrollmentMethod.SELF_ENROLLED, tenant_id := 1 },
         { db_pending_prior with
           enrollments := db_pending_prior.enrollments ++
             [{ id := 10, course_id := 1, student_id := 9,
                status := EnrollmentStatus.PENDING,
                enrollment_method := EnrollmentMethod.SELF_ENROLLED, tenant_id := 1 }],
           nextId := 11 }) :=
  ⟨by decide,
    (C5_enroll_student_spec db_pending_prior 0 1 9 1 EnrollmentMethod.SELF_ENROLLED
      false wCourse (by decide)).2.2.2.1 (by decide) (by decide)
      (by decide)⟩


/-- C6 amended: check_instructor_permission returns true exactly when
exactly one active assignment of the pair exists and false exactly when
none does, but with two or more active assignments (one instructor holding
several roles) the query raises MultipleResultsFound instead of returning
true; the outcome never depends on the role values, and create_project,
publish_project and update_team_formation_settings all commute with any
renaming of the roles, so role never influences permission. -/
theorem C6_check_permission_spec (db : DB) (cid iid : Nat) :
    (check_instructor_permission db cid iid = Except.ok true ↔
      (db.instructors.filter (fun x => x.course_id == cid &&
        x.instructor_id == iid && x.is_active)).length = 1) ∧
    (check_instructor_permission db cid iid = Except.ok false ↔
      db.instructors.filter (fun x => x.course_id == cid &&
        x.instructor_id == iid && x.is_active) = []) ∧
    (check_instructor_permission db cid iid =
        Except.error SvcError.MultipleResultsFound ↔
      2 ≤ (db.instructors.filter (fun x => x.course_id == cid &&
        x.instructor_id == iid && x.is_active)).length) ∧
    (∀ f, check_instructor_permission (map_roles f db) cid iid =
      check_instructor_permission db cid iid) ∧
    (∀ f pname sd dd tfd T descr minS maxS,
      create_project (map_roles f db) cid pname sd dd tfd T iid descr
          minS maxS =
        Except.map (fun r => (r.1, map_roles f r.2))
          (create_project db cid pname sd dd tfd T iid descr minS maxS)) ∧
    (∀ f pid, publish_project (map_roles f db) pid iid =
      Except.map (fun r => (r.1, map_roles f r.2))
        (publish_project db pid iid)) ∧
    (∀ f pid minS maxS tfd aiw atf,
      update_team_formation_settings (map_roles f db) pid iid minS maxS tfd
          aiw atf =
        Except.map (fun r => (r.1, map_roles f r.2))
          (update_team_formation_settings db pid iid minS maxS tfd aiw atf)) := by
  have hfm : ∀ (f : InstructorRole → InstructorRole) (c i : Nat),
      (map_roles f db).instructors.filter (fun x => x.course_id == c &&
        x.instructor_id == i && x.is_active) =
      (db.instructors.filter (fun x => x.course_id == c &&
        x.instructor_id == i && x.is_active)).map
        (fun a => { a with role := f a.role }) := by
    intro f c i
    show (db.instructors.map (fun a => { a with role := f a.role })).filter
        (fun x => x.course_id == c && x.instructor_id == i && x.is_active) = _
    rw [List.filter_map]
    congr 1
  have hinv : ∀ (f : InstructorRole → InstructorRole) (c i : Nat),
      check_instructor_permission (map_roles f db) c i =
      check_instructor_permission db c i := by
    intro f c i
    simp only [check_instructor_permission, hfm]
    cases hL : db.instructors.filter (fun x => x.course_id == c &&
        x.instructor_id == i && x.is_active) with
    | nil => rfl
    | cons a t =>
      cases t with
      | nil => rfl
      | cons b t2 => rfl
  refine ⟨?_, ?_, ?_, fun f => hinv f cid iid, ?_, ?_, ?_⟩
  · cases hL : db.instructors.filter (fun x => x.course_id == cid &&
        x.instructor_id == iid && x.is_active) with
    | nil => simp [check_instructor_permission, scalar_one_or_none, hL]
    | cons a t =>
      cases t with
      | nil => simp [check_instructor_permission, scalar_one_or_none, hL]
      | cons b t2 => simp [check_instructor_permission, scalar_one_or_none, hL]
  · cases hL : db.instructors.filter (fun x => x.course_id == cid &&
        x.instructor_id == iid && x.is_active) with
    | nil => simp [check_instructor_permission, scalar_one_or_none, hL]
    | cons a t =>
      cases t with
      | nil => simp [check_instructor_permission, scalar_one_or_none, hL]
      | cons b t2 => simp [check_instructor_permission, scalar_one_or_none, hL]
  · cases hL : db.instructors.filter (fun x => x.course_id == cid &&
        x.instructor_id == iid && x.is_active) with
    | nil => simp [check_instructor_permission, scalar_one_or_none, hL]
    | cons a t =>
      cases t with
      | nil => simp [check_instructor_permission, scalar_one_or_none, hL]
      | cons b t2 => simp [check_instructor_permission, scalar_one_or_none, hL]
  · intro f pname sd dd tfd T descr minS maxS
    simp only [create_project, hinv]
    cases hc : check_instructor_permission db cid iid with
    | error e => rfl
    | ok b =>
      cases b with
      | false => rfl
      | true =>
        by_cases h1 : sd ≥ dd
        · simp [h1, Except.map]
        · by_cases h2 : tfd > dd
          · simp [h1, h2, Except.map]
          · by_cases h3 : minS > maxS
            · simp [h1, h2, h3, Except.map]
            · cases hins : db.projects.any (fun x => x.id == db.nextId) <;>
                simp [h1, h2, h3, insert_project, map_roles, hins, Except.map]
  · intro f pid
    simp only [publish_project]
    rw [show project_get_by_id (map_roles f db) pid =
      project_get_by_id db pid from rfl]
    cases hp : project_get_by_id db pid with
    | error e => rfl
    | ok po =>
      cases po with
      | none => rfl
      | some p =>
        simp only [hinv]
        cases hc : check_instructor_permission db p.course_id iid with
        | error e => rfl
        | ok b =>
          cases b with
          | false => rfl
          | true => rfl
  · intro f pid minS maxS tfd aiw atf
    simp only [update_team_formation_settings]
    rw [show project_get_by_id (map_roles f db) pid =
      project_get_by_id db pid from rfl]
    cases hp : project_get_by_id db pid with
    | error e => rfl
    | ok po =>
      cases po with
      | none => rfl
      | some p =>
        simp only [hinv]
        cases hc : check_instructor_permission db p.course_id iid with
        | error e => rfl
        | ok b =>
          cases b with
          | false => rfl
          | true =>
            by_cases h1 : (apply_settings p minS maxS tfd aiw atf).min_team_size >
                (apply_settings p minS maxS tfd aiw atf).max_team_size
            · simp [h1, Except.map]
            · by_cases h2 :
                (apply_settings p minS maxS tfd aiw atf).team_formation_deadline >
                  (apply_settings p minS maxS tfd aiw atf).due_date
              · simp [h1, h2, Except.map]
              · simp [h1, h2, Except.map, update_project, map_roles]


/-- C6 counterexample: instructor 7 holds two active assignments
(CO_INSTRUCTOR and TEACHING_ASSISTANT) on course 1; the claim requires
check_instructor_permission to return true, but it raises
MultipleResultsFound. -/
theorem C6_counterexample :
    (db_two_roles.instructors.filter (fun x => x.course_id == 1 &&
      x.instructor_id == 7 && x.is_active)).length = 2 ∧
    check_instructor_permission db_two_roles 1 7 =
      Except.error SvcError.MultipleResultsFound :=
  ⟨by decide, by decide⟩


/-- C7 amended: bulk_enroll_students fails with CourseNotFound when the
course is absent under the tenant; when every listed student id has either
no enrollment row or an ACTIVE one and the ids are distinct, it creates
ACTIVE enrollments exactly for the ids with no row, skipping the ACTIVE
ones and leaving them untouched; capacity is never consulted, which the
commutation with every rewriting of max_students expresses.  A student id
whose prior row is non ACTIVE makes the bulk insert violate the pair unique
constraint and fail (see the counterexample). -/
theorem C7_bulk_enroll_spec (db : DB) (cid T : Nat) (sids : List Nat)
    (method : EnrollmentMethod) :
    (db.courses.filter (fun c => c.id == cid && c.tenant_id == T) = [] →
      bulk_enroll_students db cid sids T method =
        Except.error SvcError.CourseNotFound) ∧
    (∀ course,
      db.courses.filter (fun c => c.id == cid && c.tenant_id == T) = [course] →
      db.courses.filter (fun c => c.id == cid) = [course] →
      (∀ x ∈ db.enrollments, x.id < db.nextId) →
      (∀ sid ∈ sids,
        db.enrollments.filter
          (fun x => x.course_id == cid && x.student_id == sid) = [] ∨
        ∃ e, db.enrollments.filter
          (fun x => x.course_id == cid && x.student_id == sid) = [e] ∧
          e.status = EnrollmentStatus.ACTIVE) →
      sids.Nodup →
      ∃ es db3,
        bulk_enroll_students db cid sids T method = Except.ok (es, db3) ∧
        es.map (fun e => e.student_id) =
          sids.filter (fun sid =>
            decide (db.enrollments.filter
              (fun x => x.course_id == cid && x.student_id == sid) = [])) ∧
        (∀ e ∈ es, e.status = EnrollmentStatus.ACTIVE ∧ e.course_id = cid ∧
          e.tenant_id = course.tenant_id) ∧
        db3.enrollments = db.enrollments ++ es ∧
        db3.courses = db.courses) ∧
    (∀ m, bulk_enroll_students (set_max_students db m) cid sids T method =
      Except.map (fun r => (r.1, set_max_students r.2 m))
        (bulk_enroll_students db cid sids T method)) := by
  refine ⟨?_, ?_, ?_⟩
  · intro hnil
    simp only [bulk_enroll_students, get_by_id_and_tenant, scalar_one_or_none,
      hnil]
  · intro course hcT hcid hids hstat hnodup
    have hfil := filter_not_active_ok db cid sids hstat
    have hkeep : ∀ s ∈ sids.filter (fun sid =>
        decide (db.enrollments.filter
          (fun x => x.course_id == cid && x.student_id == sid) = [])),
        db.enrollments.filter
          (fun x => x.course_id == cid && x.student_id == s) = [] := by
      intro s hs
      exact of_decide_eq_true (List.mem_filter.mp hs).2
    obtain ⟨es, db3, hrun, hmap, hflds, henr, hcrs⟩ :=
      repo_bulk_ok cid method _ db course hcid hids hkeep
        (List.Nodup.filter _ hnodup)
    refine ⟨es, db3, ?_, hmap, hflds, henr, hcrs⟩
    simp only [bulk_enroll_students, get_by_id_and_tenant, scalar_one_or_none,
      hcT, hfil]
    exact hrun
  · intro m
    simp only [bulk_enroll_students, get_by_id_and_tenant]
    rw [set_max_filter_courses db m
      (fun c => c.id == cid && c.tenant_id == T) (fun c => rfl)]
    cases hf : db.courses.filter (fun c => c.id == cid && c.tenant_id == T) with
    | nil => rfl
    | cons c t =>
      cases t with
      | cons c2 t2 => rfl
      | nil =>
        show (match filter_not_active (set_max_students db m) cid sids with
          | Except.error e => Except.error e
          | Except.ok filtered =>
            repo_bulk_enroll_students (set_max_students db m) cid filtered
              method) = _
        rw [filter_not_active_set_max]
        cases hfa : filter_not_active db cid sids with
        | error e => rfl
        | ok filtered =>
          show repo_bulk_enroll_students (set_max_students db m) cid filtered
              method = _
          rw [repo_bulk_set_max]
          rfl


/-- C7 counterexample: student 8 holds a PENDING (hence non ACTIVE) prior
enrollment; the claim requires the bulk call to create an ACTIVE enrollment
for it, but the whole call fails with IntegrityError. -/
theorem C7_counterexample :
    wPendingE.status = EnrollmentStatus.PENDING ∧
    bulk_enroll_students db_pending_prior 1 [8] 1
        EnrollmentMethod.INSTRUCTOR_ADDED =
      Except.error SvcError.IntegrityError :=
  ⟨by decide, by decide⟩


/-- C7 witness: on a full course (capacity zero) the bulk call still
succeeds, skipping the ACTIVE student 5 and creating one ACTIVE enrollment
for student 9. -/
theorem C7_witness :
    (db_bulk.courses.filter (fun c => c.id == 1 && c.tenant_id == 1) =
      [wCourseMax0]) ∧
    is_full db_bulk wCourseMax0 = true ∧
    (∃ es db3,
      bulk_enroll_students db_bulk 1 [5, 9] 1
          EnrollmentMethod.INSTRUCTOR_ADDED = Except.ok (es, db3) ∧
      es.map (fun e => e.student_id) =
        [5, 9].filter (fun sid =>
          decide (db_bulk.enrollments.filter
            (fun x => x.course_id == 1 && x.student_id == sid) = [])) ∧
      (∀ e ∈ es, e.status = EnrollmentStatus.ACTIVE ∧ e.course_id = 1 ∧
        e.tenant_id = wCourseMax0.tenant_id) ∧
      db3.enrollments = db_bulk.enrollments ++ es ∧
      db3.courses = db_bulk.courses) :=
  ⟨by decide, by decide,
   (C7_bulk_enroll_spec db_bulk 1 1 [5, 9] EnrollmentMethod.INSTRUCTOR_ADDED).2.1
     wCourseMax0 (by decide) (by decide) (by decide)
     (by
       intro sid hs
       rcases List.mem_cons.mp hs with rfl | hs2
       · exact Or.inr ⟨wActiveE, by decide, by decide⟩
       · rcases List.mem_cons.mp hs2 with rfl | hs3
         · exact Or.inl (by decide)
         · exact (List.not_mem_nil _ hs3).elim)
     (by decide)⟩


/-- C8 amended: create_project fails with PermissionDenied when the caller
holds no active assignment on the course; with exactly one active
assignment it fails with InvalidDateRange when start_date is not strictly
before due_date, with InvalidDeadline when the team formation deadline
exceeds due_date, with InvalidTeamSize when the minimum team size exceeds
the maximum, and otherwise creates the project; with two or more active
assignments the permission query raises MultipleResultsFound and no project
is created. -/
theorem C8_create_project_spec (db : DB) (cid : Nat) (pname : String)
    (sd dd tfd : Int) (T iid : Nat) (descr : Option String) (minS maxS : Int) :
    (db.instructors.filter (fun x => x.course_id == cid &&
        x.instructor_id == iid && x.is_active) = [] →
      create_project db cid pname sd dd tfd T iid descr minS maxS =
        Except.error SvcError.PermissionDenied) ∧
    (∀ a b t, db.instructors.filter (fun x => x.course_id == cid &&
        x.instructor_id == iid && x.is_active) = a :: b :: t →
      create_project db cid pname sd dd tfd T iid descr minS maxS =
        Except.error SvcError.MultipleResultsFound) ∧
    (∀ a, db.instructors.filter (fun x => x.course_id == cid &&
        x.instructor_id == iid && x.is_active) = [a] →
      ((sd ≥ dd →
        create_project db cid pname sd dd tfd T iid descr minS maxS =
          Except.error SvcError.InvalidDateRange) ∧
       (sd < dd → tfd > dd →
        create_project db cid pname sd dd tfd T iid descr minS maxS =
          Except.error SvcError.InvalidDeadline) ∧
       (sd < dd → tfd ≤ dd → minS > maxS →
        create_project db cid pname sd dd tfd T iid descr minS maxS =
          Except.error SvcError.InvalidTeamSize) ∧
       (sd < dd → tfd ≤ dd → minS ≤ maxS →
        (∀ p ∈ db.projects, p.id ≠ db.nextId) →
        create_project db cid pname sd dd tfd T iid descr minS maxS =
          Except.ok
            (⟨db.nextId, cid, pname, descr, sd, dd, tfd, minS, maxS,
              false, true, true, true, false, false, T⟩,
             ⟨db.courses, db.instructors,
              db.projects ++ [⟨db.nextId, cid, pname, descr, sd, dd, tfd,
                minS, maxS, false, true, true, true, false, false, T⟩],
              db.enrollments, db.nextId + 1⟩)))) := by
  refine ⟨?_, ?_, ?_⟩
  · intro hnil
    simp only [create_project, check_instructor_permission, scalar_one_or_none,
      hnil]
    simp
  · intro a b t habt
    simp only [create_project, check_instructor_permission, scalar_one_or_none,
      habt]
  · intro a ha
    refine ⟨?_, ?_, ?_, ?_⟩
    · intro hsd
      simp only [create_project, check_instructor_permission,
        scalar_one_or_none, ha]
      simp [if_pos hsd]
    · intro hsd htfd
      simp only [create_project, check_instructor_permission,
        scalar_one_or_none, ha]
      simp [if_neg (not_le.mpr hsd), if_pos htfd, not_le.mpr hsd]
    · intro hsd htfd hms
      simp only [create_project, check_instructor_permission,
        scalar_one_or_none, ha]
      simp [not_le.mpr hsd, not_lt.mpr htfd, hms]
    · intro hsd htfd hms hfresh
      have hany : db.projects.any (fun x => x.id == db.nextId) = false := by
        rw [List.any_eq_false]
        intro x hx
        simpa using hfresh x hx
      simp only [create_project, check_instructor_permission,
        scalar_one_or_none, ha, insert_project]
      simp [not_le.mpr hsd, not_lt.mpr htfd, not_lt.mpr hms, hany]


/-- C8 counterexample: instructor 7 holds two active assignments and every
validation input is legal; the claim requires the project to be created,
but the call raises MultipleResultsFound. -/
theorem C8_counterexample :
    (db_two_roles.instructors.filter (fun x => x.course_id == 1 &&
      x.instructor_id == 7 && x.is_active)).length = 2 ∧
    (0 : Int) < 10 ∧ (5 : Int) ≤ 10 ∧ (3 : Int) ≤ 6 ∧
    create_project db_two_roles 1 "P" 0 10 5 1 7 none 3 6 =
      Except.error SvcError.MultipleResultsFound :=
  ⟨by decide, by decide, by decide, by decide, by decide⟩


/-- C8 witness: with one active assignment, start_date equal to due_date is
rejected with InvalidDateRange, a deadline one past due_date with
InvalidDeadline, sizes 7 over 5 with InvalidTeamSize, and legal inputs
create the project. -/
theorem C8_witness :
    (db_one_role.instructors.filter (fun x => x.course_id == 1 &&
      x.instructor_id == 7 && x.is_active) = [wCo]) ∧
    create_project db_one_role 1 "P" 10 10 5 1 7 none 3 6 =
      Except.error SvcError.InvalidDateRange ∧
    create_project db_one_role 1 "P" 0 10 11 1 7 none 3 6 =
      Except.error SvcError.InvalidDeadline ∧
    create_project db_one_role 1 "P" 0 10 5 1 7 none 7 5 =
      Except.error SvcError.InvalidTeamSize ∧
    create_project db_one_role 1 "P" 0 10 5 1 7 none 3 6 =
      Except.ok
        (⟨20, 1, "P", none, 0, 10, 5, 3, 6, false, true, true, true,
          false, false, 1⟩,
         ⟨db_one_role.courses, db_one_role.instructors,
          db_one_role.projects ++ [⟨20, 1, "P", none, 0, 10, 5, 3, 6, false,
            true, true, true, false, false, 1⟩],
          db_one_role.enrollments, 21⟩) :=
  ⟨by decide,
   ((C8_create_project_spec db_one_role 1 "P" 10 10 5 1 7 none 3 6).2.2 wCo
     (by decide)).1 (by decide),
   ((C8_create_project_spec db_one_role 1 "P" 0 10 11 1 7 none 3 6).2.2 wCo
     (by decide)).2.1 (by decide) (by decide),
   ((C8_create_project_spec db_one_role 1 "P" 0 10 5 1 7 none 7 5).2.2 wCo
     (by decide)).2.2.1 (by decide) (by decide) (by decide),
   ((C8_create_project_spec db_one_role 1 "P" 0 10 5 1 7 none 3 6).2.2 wCo
     (by decide)).2.2.2 (by decide) (by decide) (by decide) (by decide)⟩


/-- C9: update_team_formation_settings applies exactly the supplied fields
and keeps the unsupplied ones, then validates the resulting state: it fails
with InvalidTeamSize when the resulting minimum exceeds the resulting
maximum, with InvalidDeadline when the resulting deadline exceeds due_date,
and otherwise stores exactly the updated project; on failure nothing is
committed and the stored state is unchanged. -/
theorem C9_update_settings_spec (db : DB) (pid iid : Nat) (p : Project)
    (a : CourseInstructor) (minS maxS tfd : Option Int) (aiw atf : Option Bool)
    (hp : db.projects.filter (fun x => x.id == pid) = [p])
    (ha : db.instructors.filter (fun x => x.course_id == p.course_id &&
      x.instructor_id == iid && x.is_active) = [a]) :
    ((minS = none →
        (apply_settings p minS maxS tfd aiw atf).min_team_size =
          p.min_team_size) ∧
     (∀ v, minS = some v →
        (apply_settings p minS maxS tfd aiw atf).min_team_size = v) ∧
     (maxS = none →
        (apply_settings p minS maxS tfd aiw atf).max_team_size =
          p.max_team_size) ∧
     (∀ v, maxS = some v →
        (apply_settings p minS maxS tfd aiw atf).max_team_size = v) ∧
     (tfd = none →
        (apply_settings p minS maxS tfd aiw atf).team_formation_deadline =
          p.team_formation_deadline) ∧
     (∀ v, tfd = some v →
        (apply_settings p minS maxS tfd aiw atf).team_formation_deadline = v) ∧
     (aiw = none →
        (apply_settings p minS maxS tfd aiw atf).allow_individual_work =
          p.allow_individual_work) ∧
     (∀ v, aiw = some v →
        (apply_settings p minS maxS tfd aiw atf).allow_individual_work = v) ∧
     (atf = none →
        (apply_settings p minS maxS tfd aiw atf).auto_team_formation =
          p.auto_team_formation) ∧
     (∀ v, atf = some v →
        (apply_settings p minS maxS tfd aiw atf).auto_team_formation = v) ∧
     (apply_settings p minS maxS tfd aiw atf).due_date = p.due_date ∧
     (apply_settings p minS maxS tfd aiw atf).id = p.id ∧
     (apply_settings p minS maxS tfd aiw atf).course_id = p.course_id ∧
     (apply_settings p minS maxS tfd aiw atf).start_date = p.start_date ∧
     (apply_settings p minS maxS tfd aiw atf).is_published = p.is_published) ∧
    ((apply_settings p minS maxS tfd aiw atf).min_team_size >
        (apply_settings p minS maxS tfd aiw atf).max_team_size →
      update_team_formation_settings db pid iid minS maxS tfd aiw atf =
        Except.error SvcError.InvalidTeamSize ∧
      run_update_team_formation db pid iid minS maxS tfd aiw atf = db) ∧
    ((apply_settings p minS maxS tfd aiw atf).min_team_size ≤
        (apply_settings p minS maxS tfd aiw atf).max_team_size →
      (apply_settings p minS maxS tfd aiw atf).team_formation_deadline >
        (apply_settings p minS maxS tfd aiw atf).due_date →
      update_team_formation_settings db pid iid minS maxS tfd aiw atf =
        Except.error SvcError.InvalidDeadline ∧
      run_update_team_formation db pid iid minS maxS tfd aiw atf = db) ∧
    ((apply_settings p minS maxS tfd aiw atf).min_team_size ≤
        (apply_settings p minS maxS tfd aiw atf).max_team_size →
      (apply_settings p minS maxS tfd aiw atf).team_formation_deadline ≤
        (apply_settings p minS maxS tfd aiw atf).due_date →
      update_team_formation_settings db pid iid minS maxS tfd aiw atf =
        Except.ok (apply_settings p minS maxS tfd aiw atf,
          update_project db (apply_settings p minS maxS tfd aiw atf)) ∧
      run_update_team_formation db pid iid minS maxS tfd aiw atf =
        update_project db (apply_settings p minS maxS tfd aiw atf)) := by
  have hperm : check_instructor_permission db p.course_id iid =
      Except.ok true := by
    simp only [check_instructor_permission, ha, scalar_one_or_none]
    rfl
  refine ⟨?_, ?_, ?_, ?_⟩
  · refine ⟨?_, ?_, ?_, ?_, ?_, ?_, ?_, ?_, ?_, ?_, ?_, ?_, ?_, ?_, ?_⟩
    · rintro rfl
      cases maxS <;> cases tfd <;> cases aiw <;> cases atf <;> rfl
    · rintro v rfl
      cases maxS <;> cases tfd <;> cases aiw <;> cases atf <;> rfl
    · rintro rfl
      cases minS <;> cases tfd <;> cases aiw <;> cases atf <;> rfl
    · rintro v rfl
      cases minS <;> cases tfd <;> cases aiw <;> cases atf <;> rfl
    · rintro rfl
      cases minS <;> cases maxS <;> cases aiw <;> cases atf <;> rfl
    · rintro v rfl
      cases minS <;> cases maxS <;> cases aiw <;> cases atf <;> rfl
    · rintro rfl
      cases minS <;> cases maxS <;> cases tfd <;> cases atf <;> rfl
    · rintro v rfl
      cases minS <;> cases maxS <;> cases tfd <;> cases atf <;> rfl
    · rintro rfl
      cases minS <;> cases maxS <;> cases tfd <;> cases aiw <;> rfl
    · rintro v rfl
      cases minS <;> cases maxS <;> cases tfd <;> cases aiw <;> rfl
    · cases minS <;> cases maxS <;> cases tfd <;> cases aiw <;> cases atf <;> rfl
    · cases minS <;> cases maxS <;> cases tfd <;> cases aiw <;> cases atf <;> rfl
    · cases minS <;> cases maxS <;> cases tfd <;> cases aiw <;> cases atf <;> rfl
    · cases minS <;> cases maxS <;> cases tfd <;> cases aiw <;> cases atf <;> rfl
    · cases minS <;> cases maxS <;> cases tfd <;> cases aiw <;> cases atf <;> rfl
  · intro hviol
    have herr : update_team_formation_settings db pid iid minS maxS tfd
        aiw atf = Except.error SvcError.InvalidTeamSize := by
      simp only [update_team_formation_settings, project_get_by_id,
        scalar_one_or_none, hp, hperm]
      simp [hviol]
    exact ⟨herr, by simp [run_update_team_formation, herr]⟩
  · intro hok hviol
    have herr : update_team_formation_settings db pid iid minS maxS tfd
        aiw atf = Except.error SvcError.InvalidDeadline := by
      simp only [update_team_formation_settings, project_get_by_id,
        scalar_one_or_none, hp, hperm]
      simp [not_lt.mpr hok, hviol]
    exact ⟨herr, by simp [run_update_team_formation, herr]⟩
  · intro hok1 hok2
    have hgood : update_team_formation_settings db pid iid minS maxS tfd
        aiw atf = Except.ok (apply_settings p minS maxS tfd aiw atf,
          update_project db (apply_settings p minS maxS tfd aiw atf)) := by
      simp only [update_team_formation_settings, project_get_by_id,
        scalar_one_or_none, hp, hperm]
      simp [not_lt.mpr hok1, not_lt.mpr hok2]
    exact ⟨hgood, by simp [run_update_team_formation, hgood]⟩

/-- C9 witness: on project 9 (sizes 3..6, deadline 5, due 10) supplying a
minimum of 7 fails with InvalidTeamSize leaving the state unchanged, and
supplying a minimum of 4 succeeds and stores exactly the updated project. -/
theorem C9_witness :
    (db_proj.projects.filter (fun x => x.id == 9) = [wProject]) ∧
    (db_proj.instructors.filter (fun x => x.course_id == 1 &&
      x.instructor_id == 7 && x.is_active) = [wCo]) ∧
    (update_team_formation_settings db_proj 9 7 (some 7) none none none
        none = Except.error SvcError.InvalidTeamSize ∧
      run_update_team_formation db_proj 9 7 (some 7) none none none none =
        db_proj) ∧
    (update_team_formation_settings db_proj 9 7 (some 4) none none none
        none =
      Except.ok (apply_settings wProject (some 4) none none none none,
        update_project db_proj
          (apply_settings wProject (some 4) none none none none)) ∧
      run_update_team_formation db_proj 9 7 (some 4) none none none none =
        update_project db_proj
          (apply_settings wProject (some 4) none none none none)) :=
  ⟨by decide, by decide,
   (C9_update_settings_spec db_proj 9 7 wProject wCo (some 7) none none none
     none (by decide) (by decide)).2.1 (by decide),
   (C9_update_settings_spec db_proj 9 7 wProject wCo (some 4) none none none
     none (by decide) (by decide)).2.2.2 (by decide) (by decide)⟩


/-- C10: when a PENDING enrollment references a course id for which no
course row exists, approve_enrollment does not fail: the capacity check is
skipped entirely, the status becomes ACTIVE and the updated row is
persisted. -/
theorem C10_approve_without_course (db : DB) (eid : Nat) (e : CourseEnrollment)
    (he : db.enrollments.filter (fun x => x.id == eid) = [e])
    (hp : e.status = EnrollmentStatus.PENDING)
    (hc : db.courses.filter (fun c => c.id == e.course_id) = []) :
    approve_enrollment db eid =
      Except.ok ({ e with status := EnrollmentStatus.ACTIVE },
        update_enrollment db { e with status := EnrollmentStatus.ACTIVE }) := by
  simp only [approve_enrollment, enrollment_get_by_id, course_get_by_id,
    scalar_one_or_none, he, hc, hp]
  simp


/-- C10 witness: the PENDING enrollment 6 references the missing course 3
and its approval succeeds, storing it as ACTIVE. -/
theorem C10_witness :
    (db_orphan_pending.enrollments.filter (fun x => x.id == 6) = [wPending10]) ∧
    approve_enrollment db_orphan_pending 6 =
      Except.ok ({ wPending10 with status := EnrollmentStatus.ACTIVE },
        update_enrollment db_orphan_pending
          { wPending10 with status := EnrollmentStatus.ACTIVE }) :=
  ⟨by decide, C10_approve_without_course db_orphan_pending 6 wPending10
    (by decide) (by decide) (by decide)⟩
